import Mathlib

/-!
# Verification of the node1 LoRa demo loop

Shallow embedding of `src/lora/CircuitPython/node1/code.py`: a single
unbounded loop that, each iteration, builds a fresh display frame, polls
the radio for a packet, renders any received packet (payload line plus an
RSSI line), and performs a time-gated periodic transmit.

Time values returned by `time.monotonic()` are modelled as rationals;
each iteration receives the values the monotonic clock would return at
the two call sites inside the loop body (the transmit-deadline check and
the timer reset) as explicit inputs.  The optional received packet and
the radio's `last_rssi` value are likewise inputs of the iteration.
Side effects (display show/refresh, LED writes, sleeps, radio sends) are
recorded in an event trace.
-/

namespace Node1

/-- `rfm9x.node = 1` (code.py line 52). -/
def nodeAddr : Nat := 1

/-- `rfm9x.destination = 2` (code.py line 53). -/
def destAddr : Nat := 2

/-- `transmit_interval = 1` (code.py line 32), in seconds. -/
def transmitInterval : ℚ := 1

/-- `time.sleep(0.5)` dwell after a received packet (code.py line 102). -/
def dwellPeriod : ℚ := 1/2

/-- Lower-case hexadecimal digit, used by the Python `bytes` repr. -/
def hexDigit (n : Nat) : Char :=
  if n < 10 then Char.ofNat (48 + n) else Char.ofNat (87 + n)

/-- How CPython renders one byte inside a `bytes` literal with the given
quote character: backslash and the quote are escaped, tab/newline/return
use their short escapes, other printable ASCII is literal, and everything
else becomes a `\xhh` escape. -/
def pyByteEscape (quote : Nat) (b : Nat) : List Char :=
  if b = 92 then [Char.ofNat 92, Char.ofNat 92]
  else if b = 9 then [Char.ofNat 92, Char.ofNat 116]
  else if b = 10 then [Char.ofNat 92, Char.ofNat 110]
  else if b = 13 then [Char.ofNat 92, Char.ofNat 114]
  else if b = quote then [Char.ofNat 92, Char.ofNat quote]
  else if 32 ≤ b ∧ b < 127 then [Char.ofNat b]
  else [Char.ofNat 92, Char.ofNat 120, hexDigit (b / 16), hexDigit (b % 16)]

/-- CPython's `repr`/`str` of a `bytes` object, as produced by
`"{0}".format(bytes(packet[4:]))` (code.py line 89): a `b` prefix, then
the bytes between single quotes, or double quotes when the data contains
a single quote but no double quote. -/
def pythonBytesRepr (bs : List Nat) : String :=
  let quote : Nat := if bs.contains 39 ∧ ¬ bs.contains 34 then 34 else 39
  String.mk
    (Char.ofNat 98 :: Char.ofNat quote ::
      ((bs.map (pyByteEscape quote)).flatten ++ [Char.ofNat quote]))

/-- An inbound packet as returned by `rfm9x.receive(with_header=True)`:
raw bytes, 4-byte header followed by the payload. -/
structure Packet where
  bytes : List Nat
deriving DecidableEq

/-- One element of a `displayio.Group`: the background `TileGrid` or a
`label.Label` text line with its position. -/
inductive FrameElem where
  | background
  | textLine (text : String) (x : Int) (y : Int)
deriving DecidableEq

/-- A display frame: the contents of the `splash` group, in append order. -/
abbrev Frame := List FrameElem

/-- Observable side effects of the loop body, in program order. -/
inductive Event where
  | showFrame (f : Frame)
  | ledSet (b : Bool)
  | receivePoll
  | refresh
  | sleep (d : ℚ)
  | radioSend (payload : String) (keepListening : Bool)
deriving DecidableEq

/-- The loop-carried mutable state: the message `counter` and `now`, the
timestamp of the last transmit. -/
structure LoopState where
  counter : Nat
  now : ℚ
deriving DecidableEq

/-- `"Startup message {} from node {}".format(counter, rfm9x.node)`
(code.py line 58). -/
def startupMsg (counter : Nat) (node : Nat) : String :=
  "Startup message " ++ toString counter ++ " from node " ++ toString node

/-- `"msg num {} node {}".format(counter, rfm9x.node)` (code.py line 108). -/
def periodicMsg (counter : Nat) (node : Nat) : String :=
  "msg num " ++ toString counter ++ " node " ++ toString node

/-- Startup section before the loop (code.py lines 54-64): `counter = 0`,
one broadcast send embedding the counter and node address, `now`
initialised from the monotonic clock (value `t0`), `led.value = True`. -/
def startup (t0 : ℚ) : LoopState × List Event :=
  ({ counter := 0, now := t0 },
   [Event.radioSend (startupMsg 0 nodeAddr) false, Event.ledSet true])

/-- Inputs consumed by one loop iteration: the receive outcome, the
radio's `last_rssi`, and the two monotonic-clock readings inside the
transmit branch (`tCheck` at the `if` condition, `tReset` at the
`now = time.monotonic()` assignment). -/
structure IterInput where
  packet : Option Packet
  lastRssi : Int
  tCheck : ℚ
  tReset : ℚ
deriving DecidableEq

/-- Text lines appended to the frame for a receive outcome (code.py
lines 84-99): nothing when no packet, otherwise the payload line
`"{0}".format(bytes(packet[4:]))` at y=10 then `"RSSI: {0}"` at y=25. -/
def recvLines : Option Packet → Int → List FrameElem
  | none, _ => []
  | some p, rssi =>
      [FrameElem.textLine (pythonBytesRepr (p.bytes.drop 4)) 0 10,
       FrameElem.textLine ("RSSI: " ++ toString rssi) 0 25]

/-- Events of the packet branch (code.py lines 84-102): on a packet,
`display.refresh()`, `led.value = True`, `time.sleep(0.5)`. -/
def recvEvents : Option Packet → List Event
  | none => []
  | some _ => [Event.refresh, Event.ledSet true, Event.sleep dwellPeriod]

/-- The frame as fully built by one iteration: background sprite first,
then any received-packet text lines. -/
def buildFrame (packet : Option Packet) (rssi : Int) : Frame :=
  FrameElem.background :: recvLines packet rssi

/-- Result of one loop iteration: the updated loop state, the frame the
iteration built, and the trace of its side effects. -/
structure IterResult where
  state : LoopState
  frame : Frame
  trace : List Event
deriving DecidableEq

/-- One iteration of the `while True:` body (code.py lines 66-113):
`splash = displayio.Group()` and `display.show(splash)` with the still
empty group; append the background sprite; `led.value = False`;
`packet = rfm9x.receive(with_header=True)`; if a packet arrived, append
the payload and RSSI text lines, refresh, light the LED and dwell; then
if `time.monotonic() - now > transmit_interval`, reset `now`, increment
`counter` and send the periodic message with `keep_listening=True`. -/
def loopIter (s : LoopState) (inp : IterInput) : IterResult :=
  let splash : Frame := []
  let trace : List Event := [Event.showFrame splash, Event.ledSet false,
    Event.receivePoll]
  let splash := splash ++ [FrameElem.background] ++ recvLines inp.packet inp.lastRssi
  let trace := trace ++ recvEvents inp.packet
  if transmitInterval < inp.tCheck - s.now then
    { state := { counter := s.counter + 1, now := inp.tReset },
      frame := splash,
      trace := trace ++ [Event.radioSend (periodicMsg (s.counter + 1) nodeAddr) true] }
  else
    { state := s, frame := splash, trace := trace }

/-- Run the loop over a finite list of per-iteration inputs, collecting
each iteration's result. -/
def runLoop : LoopState → List IterInput → List IterResult
  | _, [] => []
  | s, inp :: rest =>
      let r := loopIter s inp
      r :: runLoop r.state rest

/-- Is a frame element a text line (as opposed to the background)? -/
def isTextLine : FrameElem → Bool
  | FrameElem.textLine _ _ _ => true
  | FrameElem.background => false

/-- The text lines of a frame, in append order. -/
def textLines (f : Frame) : List FrameElem := f.filter isTextLine

/-- The vertical position of a frame element. -/
def elemY : FrameElem → Int
  | FrameElem.textLine _ _ y => y
  | FrameElem.background => 0

/-- Recognise a `showFrame` event. -/
def isShow : Event → Bool
  | Event.showFrame _ => true
  | _ => false

/-- Recognise the `receivePoll` event. -/
def isPoll : Event → Bool
  | Event.receivePoll => true
  | _ => false

/-- Recognise a `radioSend` event. -/
def isSendEvt : Event → Bool
  | Event.radioSend _ _ => true
  | _ => false

/-- Number of radio sends in a trace. -/
def sendCount (tr : List Event) : Nat := (tr.filter isSendEvt).length

/-- Did the iteration execute a periodic transmit? -/
def transmitted (r : IterResult) : Bool := 0 < sendCount r.trace

/-- Total duration of all `sleep` events in a trace. -/
def sleepTotal : List Event → ℚ
  | [] => 0
  | Event.sleep d :: tr => d + sleepTotal tr
  | _ :: tr => sleepTotal tr

/-! ## Helper lemmas -/

/-- Closed form of one loop iteration. -/
theorem loopIter_eq (s : LoopState) (inp : IterInput) :
    loopIter s inp =
      { state := if transmitInterval < inp.tCheck - s.now
                 then { counter := s.counter + 1, now := inp.tReset } else s,
        frame := FrameElem.background :: recvLines inp.packet inp.lastRssi,
        trace := [Event.showFrame [], Event.ledSet false, Event.receivePoll]
          ++ recvEvents inp.packet
          ++ if transmitInterval < inp.tCheck - s.now
             then [Event.radioSend (periodicMsg (s.counter + 1) nodeAddr) true]
             else [] } := by
  unfold loopIter
  split <;> simp

/-- The frame built by an iteration depends only on the iteration's own
receive outcome and RSSI reading. -/
theorem loopIter_frame (s : LoopState) (inp : IterInput) :
    (loopIter s inp).frame = buildFrame inp.packet inp.lastRssi := by
  rw [loopIter_eq]; rfl

/-- The text lines of the frame are exactly the receive-branch lines. -/
theorem textLines_loopIter (s : LoopState) (inp : IterInput) :
    textLines (loopIter s inp).frame = recvLines inp.packet inp.lastRssi := by
  rw [loopIter_frame]
  cases inp.packet <;>
    simp [buildFrame, recvLines, textLines, isTextLine]

/-- Number of radio sends of one iteration. -/
theorem sendCount_loopIter (s : LoopState) (inp : IterInput) :
    sendCount (loopIter s inp).trace =
      if transmitInterval < inp.tCheck - s.now then 1 else 0 := by
  rw [loopIter_eq]
  cases inp.packet <;> split <;>
    simp [sendCount, recvEvents, isSendEvt, List.filter_append]

/-- An iteration transmits exactly when the strict deadline check passes. -/
theorem transmitted_iff (s : LoopState) (inp : IterInput) :
    transmitted (loopIter s inp) = true ↔
      transmitInterval < inp.tCheck - s.now := by
  rw [transmitted, sendCount_loopIter]
  split <;> simp_all

/-! ## Claims -/

/-- C1 (counterexample): with the last transmit at time 0 and the clock
reading exactly 1 at the deadline check, the elapsed time equals the
configured interval — the claim's `elapsed ≥ interval` holds — yet the
code's strict `>` comparison does not fire and no transmit is executed. -/
theorem C1_counterexample :
    transmitInterval ≤ (1 : ℚ) - (0 : ℚ) ∧
    transmitted (loopIter { counter := 0, now := 0 }
      { packet := none, lastRssi := 0, tCheck := 1, tReset := 1 }) = false := by
  refine ⟨by norm_num [transmitInterval], ?_⟩
  have h : ¬ transmitInterval < (1 : ℚ) - (0 : ℚ) := by norm_num [transmitInterval]
  simp [transmitted, sendCount_loopIter, h]
  norm_num [transmitInterval]

/-- C1 (amended): in every loop iteration a periodic transmit is executed
if and only if the elapsed time since the last transmit is STRICTLY
GREATER than the configured interval (elapsed exactly equal to the
interval does not transmit); at most one transmit is executed per
iteration; a transmit resets the last-transmit timestamp to the clock
reading taken at the reset, so two transmits executed in consecutive
iterations are separated by more than one interval. -/
theorem C1_periodic_transmit_gating (s : LoopState) (inp : IterInput) :
    (transmitted (loopIter s inp) = true ↔
      transmitInterval < inp.tCheck - s.now) ∧
    sendCount (loopIter s inp).trace ≤ 1 ∧
    (transmitted (loopIter s inp) = true →
      (loopIter s inp).state.now = inp.tReset ∧
      ∀ inp2 : IterInput,
        transmitted (loopIter (loopIter s inp).state inp2) = true →
          transmitInterval < inp2.tCheck - inp.tReset) := by
  refine ⟨transmitted_iff s inp, ?_, ?_⟩
  · rw [sendCount_loopIter]; split <;> simp
  · intro ht
    have hc : transmitInterval < inp.tCheck - s.now := (transmitted_iff s inp).mp ht
    have hstate : (loopIter s inp).state = { counter := s.counter + 1, now := inp.tReset } := by
      rw [loopIter_eq]; simp [hc]
    refine ⟨by rw [hstate], ?_⟩
    intro inp2 ht2
    have := (transmitted_iff (loopIter s inp).state inp2).mp ht2
    rwa [hstate] at this

/-- C1 witness: a concrete iteration whose deadline check passes. -/
theorem C1_periodic_transmit_witness :
    transmitted (loopIter { counter := 0, now := 0 }
      { packet := none, lastRssi := 0, tCheck := 2, tReset := 2 }) = true :=
  (C1_periodic_transmit_gating { counter := 0, now := 0 }
    { packet := none, lastRssi := 0, tCheck := 2, tReset := 2 }).1.mpr
    (by norm_num [transmitInterval])

/-- C2: the counter is 0 at the startup broadcast, which is sent exactly
once with the counter value 0 and the local node address embedded in its
payload; an iteration that transmits increments the counter by exactly 1
and sends the payload embedding the incremented counter and the node
address; an iteration that does not transmit leaves the counter
unchanged (and the loop body modifies it nowhere else). -/
theorem C2_counter_invariant (t0 : ℚ) (s : LoopState) (inp : IterInput) :
    (startup t0).1.counter = 0 ∧
    sendCount (startup t0).2 = 1 ∧
    Event.radioSend (startupMsg 0 nodeAddr) false ∈ (startup t0).2 ∧
    startupMsg 0 nodeAddr = "Startup message 0 from node 1" ∧
    (transmitted (loopIter s inp) = true →
      (loopIter s inp).state.counter = s.counter + 1 ∧
      Event.radioSend (periodicMsg (s.counter + 1) nodeAddr) true
        ∈ (loopIter s inp).trace) ∧
    (transmitted (loopIter s inp) = false →
      (loopIter s inp).state.counter = s.counter) ∧
    periodicMsg (s.counter + 1) nodeAddr =
      "msg num " ++ toString (s.counter + 1) ++ " node " ++ toString nodeAddr := by
  refine ⟨rfl, rfl, by simp [startup], rfl, ?_, ?_, rfl⟩
  · intro ht
    have hc : transmitInterval < inp.tCheck - s.now := (transmitted_iff s inp).mp ht
    rw [loopIter_eq]
    simp [hc]
  · intro ht
    have hc : ¬ transmitInterval < inp.tCheck - s.now := by
      intro hlt
      rw [(transmitted_iff s inp).mpr hlt] at ht
      exact Bool.noConfusion ht
    rw [loopIter_eq]
    simp [hc]

/-- C3: in every iteration that receives a packet, the frame's text
lines are exactly two, in fixed order: first the line derived from the
payload bytes (the bytes after the 4-byte header), then the line derived
from the RSSI value, with the payload line above the RSSI line by
vertical position. -/
theorem C3_two_text_lines (s : LoopState) (inp : IterInput) (p : Packet)
    (hp : inp.packet = some p) :
    textLines (loopIter s inp).frame =
      [FrameElem.textLine (pythonBytesRepr (p.bytes.drop 4)) 0 10,
       FrameElem.textLine ("RSSI: " ++ toString inp.lastRssi) 0 25] ∧
    elemY (FrameElem.textLine (pythonBytesRepr (p.bytes.drop 4)) 0 10) <
      elemY (FrameElem.textLine ("RSSI: " ++ toString inp.lastRssi) 0 25) := by
  refine ⟨?_, by norm_num [elemY]⟩
  rw [textLines_loopIter, hp]
  rfl

/-- C3 witness: a concrete packet renders its two lines in order. -/
theorem C3_two_text_lines_witness :
    textLines (loopIter { counter := 0, now := 0 }
      { packet := some { bytes := [2, 1, 0, 0, 104, 105] }, lastRssi := -42,
        tCheck := 0, tReset := 0 }).frame =
      [FrameElem.textLine (pythonBytesRepr ([2, 1, 0, 0, 104, 105].drop 4)) 0 10,
       FrameElem.textLine ("RSSI: " ++ toString (-42 : Int)) 0 25] ∧
    elemY (FrameElem.textLine (pythonBytesRepr ([2, 1, 0, 0, 104, 105].drop 4)) 0 10) <
      elemY (FrameElem.textLine ("RSSI: " ++ toString (-42 : Int)) 0 25) :=
  C3_two_text_lines { counter := 0, now := 0 }
    { packet := some { bytes := [2, 1, 0, 0, 104, 105] }, lastRssi := -42,
      tCheck := 0, tReset := 0 }
    { bytes := [2, 1, 0, 0, 104, 105] } rfl

/-- C4: in every iteration that receives no packet, the constructed
frame holds no text lines — it is exactly the background sprite. -/
theorem C4_no_packet_background_only (s : LoopState) (inp : IterInput)
    (hp : inp.packet = none) :
    textLines (loopIter s inp).frame = [] ∧
    (loopIter s inp).frame = [FrameElem.background] := by
  refine ⟨?_, ?_⟩
  · rw [textLines_loopIter, hp]
    rfl
  · rw [loopIter_frame, hp]
    rfl

/-- C4 witness: a concrete packetless iteration. -/
theorem C4_no_packet_background_only_witness :
    textLines (loopIter { counter := 0, now := 0 }
      { packet := none, lastRssi := 0, tCheck := 0, tReset := 0 }).frame = [] ∧
    (loopIter { counter := 0, now := 0 }
      { packet := none, lastRssi := 0, tCheck := 0, tReset := 0 }).frame =
      [FrameElem.background] :=
  C4_no_packet_background_only { counter := 0, now := 0 }
    { packet := none, lastRssi := 0, tCheck := 0, tReset := 0 } rfl

/-- C5: every iteration constructs exactly one fresh frame — each run of
the loop yields one frame per input, that frame is a function of the
iteration's own input alone (so no content persists from any previous
iteration or from the loop state), it starts with only the background,
and each iteration pushes exactly one group to the display, still empty
at the moment it is shown. -/
theorem C5_fresh_frame_each_iteration (s : LoopState) (inputs : List IterInput) :
    (runLoop s inputs).map IterResult.frame =
      inputs.map (fun inp => buildFrame inp.packet inp.lastRssi) ∧
    (∀ inp : IterInput,
      (buildFrame inp.packet inp.lastRssi).head? = some FrameElem.background) ∧
    (∀ s' : LoopState, ∀ inp : IterInput,
      ((loopIter s' inp).trace.filter isShow) = [Event.showFrame []]) := by
  refine ⟨?_, ?_, ?_⟩
  · induction inputs generalizing s with
    | nil => rfl
    | cons inp rest ih =>
        simp only [runLoop, List.map_cons, loopIter_frame]
        exact congrArg _ (ih _)
  · intro inp
    cases inp.packet <;> rfl
  · intro s' inp
    rw [loopIter_eq]
    cases hpk : inp.packet <;> split <;>
      simp [recvEvents, isShow, List.filter_append]

/-- C6: the iteration's trace always shows the frame strictly before the
receive poll, and the poll strictly before any periodic send; a transmit
already due at an earlier instant `t` of the iteration (in particular at
the moment a packet is received) is still executed at the later deadline
check — never dropped — and the total blocking sleep of the iteration is
at most one dwell period. -/
theorem C6_ordering_and_bounded_delay (s : LoopState) (inp : IterInput)
    (t : ℚ) (hmono : t ≤ inp.tCheck) (hdue : transmitInterval < t - s.now) :
    (loopIter s inp).trace.findIdx isShow <
      (loopIter s inp).trace.findIdx isPoll ∧
    (loopIter s inp).trace.findIdx isPoll <
      (loopIter s inp).trace.findIdx isSendEvt ∧
    transmitted (loopIter s inp) = true ∧
    sleepTotal (loopIter s inp).trace ≤ dwellPeriod := by
  have hc : transmitInterval < inp.tCheck - s.now :=
    lt_of_lt_of_le hdue (sub_le_sub_right hmono s.now)
  refine ⟨?_, ?_, (transmitted_iff s inp).mpr hc, ?_⟩ <;>
    rw [loopIter_eq] <;>
    cases hpk : inp.packet <;>
      simp [hc, recvEvents, isShow, isPoll, isSendEvt, List.findIdx_cons,
        sleepTotal, dwellPeriod]

/-- C6 witness: a concrete iteration with a transmit due since time `t = 2`. -/
theorem C6_ordering_and_bounded_delay_witness :
    (loopIter { counter := 0, now := 0 }
        { packet := none, lastRssi := 0, tCheck := 2, tReset := 2 }).trace.findIdx
        isShow <
      (loopIter { counter := 0, now := 0 }
        { packet := none, lastRssi := 0, tCheck := 2, tReset := 2 }).trace.findIdx
        isPoll ∧
    (loopIter { counter := 0, now := 0 }
        { packet := none, lastRssi := 0, tCheck := 2, tReset := 2 }).trace.findIdx
        isPoll <
      (loopIter { counter := 0, now := 0 }
        { packet := none, lastRssi := 0, tCheck := 2, tReset := 2 }).trace.findIdx
        isSendEvt ∧
    transmitted (loopIter { counter := 0, now := 0 }
      { packet := none, lastRssi := 0, tCheck := 2, tReset := 2 }) = true ∧
    sleepTotal (loopIter { counter := 0, now := 0 }
      { packet := none, lastRssi := 0, tCheck := 2, tReset := 2 }).trace ≤
      dwellPeriod :=
  C6_ordering_and_bounded_delay { counter := 0, now := 0 }
    { packet := none, lastRssi := 0, tCheck := 2, tReset := 2 } 2
    (by norm_num) (by norm_num [transmitInterval])

/-- C7: a received packet is rendered whatever the destination byte of
its 4-byte header holds — in particular when the destination is not the
local node address, the frame still gains the two text lines: no
destination check guards the rendering. -/
theorem C7_no_destination_filter (s : LoopState) (inp : IterInput)
    (p : Packet) (hp : inp.packet = some p)
    (_hwrong : p.bytes.head? ≠ some nodeAddr) :
    (textLines (loopIter s inp).frame).length = 2 ∧
    textLines (loopIter s inp).frame ≠ [] := by
  rw [textLines_loopIter, hp]
  exact ⟨rfl, by simp [recvLines]⟩

/-- C7 witness: a packet addressed to node 99, not the local node 1, is
still rendered. -/
theorem C7_no_destination_filter_witness :
    (textLines (loopIter { counter := 0, now := 0 }
      { packet := some { bytes := [99, 2, 0, 0, 104] }, lastRssi := 0,
        tCheck := 0, tReset := 0 }).frame).length = 2 ∧
    textLines (loopIter { counter := 0, now := 0 }
      { packet := some { bytes := [99, 2, 0, 0, 104] }, lastRssi := 0,
        tCheck := 0, tReset := 0 }).frame ≠ [] :=
  C7_no_destination_filter { counter := 0, now := 0 }
    { packet := some { bytes := [99, 2, 0, 0, 104] }, lastRssi := 0,
      tCheck := 0, tReset := 0 }
    { bytes := [99, 2, 0, 0, 104] } rfl (by decide)

/-- C8: when the received packet carries payload bytes `hello` after any
4-byte header and the RSSI reading is -42, the frame's first text line
is CPython's textual form of the bytes (`b`, quote, `hello`, quote) and
the second is exactly `RSSI: -42`; the trace then sets the indicator to
the received (on) state and immediately holds it for the dwell period. -/
theorem C8_hello_scenario (s : LoopState) (inp : IterInput) (hdr : List Nat)
    (hlen : hdr.length = 4)
    (hp : inp.packet = some { bytes := hdr ++ [104, 101, 108, 108, 111] })
    (hr : inp.lastRssi = -42) :
    textLines (loopIter s inp).frame =
      [FrameElem.textLine (String.mk [Char.ofNat 98, Char.ofNat 39,
          Char.ofNat 104, Char.ofNat 101, Char.ofNat 108, Char.ofNat 108,
          Char.ofNat 111, Char.ofNat 39]) 0 10,
       FrameElem.textLine "RSSI: -42" 0 25] ∧
    (loopIter s inp).trace[4]? = some (Event.ledSet true) ∧
    (loopIter s inp).trace[5]? = some (Event.sleep dwellPeriod) := by
  have hdrop : (hdr ++ [104, 101, 108, 108, 111]).drop 4 =
      [104, 101, 108, 108, 111] := by
    rw [← hlen, List.drop_left]
  refine ⟨?_, ?_, ?_⟩
  · rw [textLines_loopIter, hp]
    simp only [recvLines, hdrop, hr]
    rfl
  · rw [loopIter_eq, hp]
    split <;> rfl
  · rw [loopIter_eq, hp]
    split <;> rfl

/-- C8 witness: the scenario at a concrete header and state. -/
theorem C8_hello_scenario_witness :
    textLines (loopIter { counter := 0, now := 0 }
      { packet := some { bytes := [2, 1, 0, 0] ++ [104, 101, 108, 108, 111] },
        lastRssi := -42, tCheck := 0, tReset := 0 }).frame =
      [FrameElem.textLine (String.mk [Char.ofNat 98, Char.ofNat 39,
          Char.ofNat 104, Char.ofNat 101, Char.ofNat 108, Char.ofNat 108,
          Char.ofNat 111, Char.ofNat 39]) 0 10,
       FrameElem.textLine "RSSI: -42" 0 25] ∧
    (loopIter { counter := 0, now := 0 }
      { packet := some { bytes := [2, 1, 0, 0] ++ [104, 101, 108, 108, 111] },
        lastRssi := -42, tCheck := 0, tReset := 0 }).trace[4]? =
      some (Event.ledSet true) ∧
    (loopIter { counter := 0, now := 0 }
      { packet := some { bytes := [2, 1, 0, 0] ++ [104, 101, 108, 108, 111] },
        lastRssi := -42, tCheck := 0, tReset := 0 }).trace[5]? =
      some (Event.sleep dwellPeriod) :=
  C8_hello_scenario { counter := 0, now := 0 }
    { packet := some { bytes := [2, 1, 0, 0] ++ [104, 101, 108, 108, 111] },
      lastRssi := -42, tCheck := 0, tReset := 0 }
    [2, 1, 0, 0] rfl rfl rfl

/-- C9: every iteration pushes the freshly created, still-empty group to
the display as its first action, before the receive poll (trace position
0 versus 2), and `display.refresh()` appears in the trace exactly when a
packet was received. -/
theorem C9_show_first_refresh_gated (s : LoopState) (inp : IterInput) :
    (loopIter s inp).trace[0]? = some (Event.showFrame []) ∧
    (loopIter s inp).trace[2]? = some Event.receivePoll ∧
    (Event.refresh ∈ (loopIter s inp).trace ↔ inp.packet.isSome = true) := by
  rw [loopIter_eq]
  cases inp.packet <;> split <;>
    exact ⟨rfl, rfl, by simp [recvEvents]⟩

/-- C10: the 4 header bytes never influence the rendered frame — two
received packets equal from byte 4 on, observed with the same RSSI,
yield identical text lines whatever their headers. -/
theorem C10_header_noninterference (s1 s2 : LoopState) (i1 i2 : IterInput)
    (p1 p2 : Packet) (h1 : i1.packet = some p1) (h2 : i2.packet = some p2)
    (hpl : p1.bytes.drop 4 = p2.bytes.drop 4) (hr : i1.lastRssi = i2.lastRssi) :
    textLines (loopIter s1 i1).frame = textLines (loopIter s2 i2).frame := by
  rw [textLines_loopIter, textLines_loopIter, h1, h2]
  simp [recvLines, hpl, hr]

/-- C10 witness: two packets with different headers but the same payload
and RSSI render the same lines. -/
theorem C10_header_noninterference_witness :
    textLines (loopIter { counter := 0, now := 0 }
      { packet := some { bytes := [0, 0, 0, 0, 104, 105] }, lastRssi := -30,
        tCheck := 0, tReset := 0 }).frame =
    textLines (loopIter { counter := 5, now := 7 }
      { packet := some { bytes := [9, 8, 7, 6, 104, 105] }, lastRssi := -30,
        tCheck := 0, tReset := 0 }).frame :=
  C10_header_noninterference { counter := 0, now := 0 } { counter := 5, now := 7 }
    { packet := some { bytes := [0, 0, 0, 0, 104, 105] }, lastRssi := -30,
      tCheck := 0, tReset := 0 }
    { packet := some { bytes := [9, 8, 7, 6, 104, 105] }, lastRssi := -30,
      tCheck := 0, tReset := 0 }
    { bytes := [0, 0, 0, 0, 104, 105] } { bytes := [9, 8, 7, 6, 104, 105] }
    rfl rfl rfl rfl

end Node1
